import Mathlib

/-!
Shallow embedding of the fundflow-transparency edge functions
(`make-donation` and `cast-vote` in src/supabase/functions/make-donation/index.ts)
over the relational schema of src/supabase/migrations.

Amounts (SQL REAL) are modelled as Int, ids (UUID / BIGSERIAL) as Nat,
timestamps as Nat. Store-level failures that are not determined by the data
(network/storage faults) are modelled by an explicit oracle of Booleans;
constraint-derived failures (foreign keys, the UNIQUE(milestone_id,
validator_id) constraint on validations) are computed from the state.
-/

namespace FundFlow

/-- The app_role enum of the profiles table: 'ngo' | 'donor' | 'validator'. -/
inductive Role where
  | ngo
  | donor
  | validator
deriving DecidableEq

/-- A row of public.profiles (fields the handlers read). -/
structure Profile where
  id : Nat
  user_id : Nat
  role : Role
deriving DecidableEq

/-- A row of public.projects (fields the handlers touch). -/
structure Project where
  id : Nat
  funds_raised : Int
deriving DecidableEq

/-- A row of public.milestones; status is TEXT (default 'PENDING'). -/
structure Milestone where
  id : Nat
  status : String
deriving DecidableEq

/-- A row of public.validations; UNIQUE(milestone_id, validator_id). -/
structure Validation where
  id : Nat
  milestone_id : Nat
  validator_id : Nat
  is_valid : Bool
deriving DecidableEq

/-- A row of public.donations. -/
structure Donation where
  id : Nat
  donor_id : Nat
  project_id : Nat
  amount : Int
deriving DecidableEq

/-- The JSON details payload of a ledger row, as each handler builds it. -/
inductive LedgerDetails where
  | donationEv (donation_id donor_id project_id : Nat) (amount : Int) (timestamp : Nat)
  | releaseEv (milestone_id validation_id : Nat) (positive_votes : Nat)
      (threshold_met : Bool) (timestamp : Nat)
deriving DecidableEq

/-- A row of public.ledger. -/
structure LedgerEntry where
  event_type : String
  details : LedgerDetails
deriving DecidableEq

/-- The relational store the two handlers operate on. -/
structure DB where
  profiles : List Profile
  projects : List Project
  milestones : List Milestone
  validations : List Validation
  donations : List Donation
  ledger : List LedgerEntry
  nextDonationId : Nat
  nextValidationId : Nat
deriving DecidableEq

/-- Profile lookup `.from('profiles').eq('user_id', uid).single()`. -/
def findProfile (db : DB) (uid : Nat) : Option Profile :=
  db.profiles.find? (fun p => p.user_id == uid)

/-- Whether the referenced project exists (target of the donations FK). -/
def projectExists (db : DB) (pid : Nat) : Bool :=
  db.projects.any (fun p => p.id == pid)

/-- Whether the referenced milestone exists (target of the validations FK). -/
def milestoneExists (db : DB) (mid : Nat) : Bool :=
  db.milestones.any (fun m => m.id == mid)

/-- Read a project's funds_raised. -/
def getFunds (db : DB) (pid : Nat) : Option Int :=
  (db.projects.find? (fun p => p.id == pid)).map Project.funds_raised

/-- Read a milestone's status. -/
def getStatus (db : DB) (mid : Nat) : Option String :=
  (db.milestones.find? (fun m => m.id == mid)).map Milestone.status

/-- Whether a validation row for the (milestone, validator) pair exists
(the UNIQUE constraint's decision). -/
def hasVote (db : DB) (mid vid : Nat) : Bool :=
  db.validations.any (fun v => v.milestone_id == mid && v.validator_id == vid)

/-- The count query of cast-vote: validations with this milestone_id and
is_valid = true. -/
def positiveVotes (db : DB) (mid : Nat) : Nat :=
  (db.validations.filter (fun v => v.milestone_id == mid && v.is_valid)).length

/-- Number of ledger entries of type "release" whose details reference the
milestone. -/
def releaseEntries (db : DB) (mid : Nat) : Nat :=
  (db.ledger.filter (fun e =>
    match e.details with
    | .releaseEv m _ _ _ _ => m == mid
    | _ => false)).length

/-- The store-side UPDATE `set funds_raised = funds_raised + amount where id = pid`. -/
def updFunds (pid : Nat) (amount : Int) (p : Project) : Project :=
  if p.id == pid then { p with funds_raised := p.funds_raised + amount } else p

/-- The store-side UPDATE `set status = 'COMPLETED' where id = mid`. -/
def updStatus (mid : Nat) (m : Milestone) : Milestone :=
  if m.id == mid then { m with status := "COMPLETED" } else m

/-- Oracle of spontaneous store failures for the fallible store calls each
handler makes (beyond failures forced by constraints). -/
structure StoreFail where
  donationInsert : Bool
  fundsUpdate : Bool
  donationLedger : Bool
  validationInsert : Bool
  voteCount : Bool
  milestoneUpdate : Bool
  releaseLedger : Bool
deriving DecidableEq

/-- No spontaneous store failure. -/
def noFail : StoreFail :=
  ⟨false, false, false, false, false, false, false⟩

/-- Only the ledger append of make-donation fails. -/
def ledgerFailOnly : StoreFail :=
  ⟨false, false, true, false, false, false, false⟩

/-- Only the milestone status update of cast-vote fails. -/
def msUpdateFailOnly : StoreFail :=
  ⟨false, false, false, false, false, true, false⟩

/-- Outcome of the make-donation handler, one constructor per response site. -/
inductive DonationResult where
  | unauthorized
  | profileNotFound
  | donationFailed
  | fundsUpdateFailed
  | success (donation : Donation)
deriving DecidableEq

/-- HTTP status of each make-donation response as written in the handler. -/
def DonationResult.status : DonationResult → Nat
  | .unauthorized => 401
  | .profileNotFound => 404
  | .donationFailed => 500
  | .fundsUpdateFailed => 500
  | .success _ => 200

/-- Outcome of the cast-vote handler, one constructor per response site. -/
inductive VoteResult where
  | unauthorized
  | forbidden
  | validationFailed
  | countFailed
  | success (validation : Validation) (positive_votes : Nat) (milestone_completed : Bool)
deriving DecidableEq

/-- HTTP status of each cast-vote response as written in the handler. -/
def VoteResult.status : VoteResult → Nat
  | .unauthorized => 401
  | .forbidden => 403
  | .validationFailed => 500
  | .countFailed => 500
  | .success _ _ _ => 200

/-- The fixed approval threshold of the cast-vote handler. -/
def APPROVAL_THRESHOLD : Nat := 3

/-- The make-donation handler. `authUser` is the user id resolved from the
bearer token (`none` when auth fails). Mirrors the handler line by line:
auth check, profile lookup, donation insert (fails on spontaneous store
failure or on the project FK violation), atomic funds_raised update
(a failure here does NOT roll back the inserted donation), best-effort
ledger append (a failure is logged and the call still succeeds). -/
def makeDonation (db : DB) (authUser : Option Nat) (projectId : Nat) (amount : Int)
    (f : StoreFail) (now : Nat) : DonationResult × DB :=
  match authUser with
  | none => (.unauthorized, db)
  | some uid =>
    match findProfile db uid with
    | none => (.profileNotFound, db)
    | some profile =>
      if f.donationInsert || !(projectExists db projectId) then
        (.donationFailed, db)
      else
        let donation : Donation :=
          { id := db.nextDonationId, donor_id := profile.id,
            project_id := projectId, amount := amount }
        let db1 : DB :=
          { db with donations := db.donations ++ [donation],
                    nextDonationId := db.nextDonationId + 1 }
        if f.fundsUpdate then
          (.fundsUpdateFailed, db1)
        else
          let db2 : DB := { db1 with projects := db1.projects.map (updFunds projectId amount) }
          if f.donationLedger then
            (.success donation, db2)
          else
            let entry : LedgerEntry :=
              { event_type := "donation",
                details := .donationEv donation.id profile.id projectId amount now }
            (.success donation, { db2 with ledger := db2.ledger ++ [entry] })

/-- The cast-vote handler. Mirrors the handler line by line: auth check,
profile lookup plus role check (403 unless role = validator), validation
insert (fails on spontaneous store failure, on the UNIQUE(milestone_id,
validator_id) violation, or on the milestone FK violation), fresh count of
positive votes in the post-insert state, and — whenever that count reaches
APPROVAL_THRESHOLD, with no check of the milestone's current status —
the status update to 'COMPLETED' followed by a release ledger append; a
milestone-update failure is logged and the call still succeeds with
milestone_completed = false; a ledger failure is logged and swallowed. -/
def castVote (db : DB) (authUser : Option Nat) (milestoneId : Nat) (isValid : Bool)
    (f : StoreFail) (now : Nat) : VoteResult × DB :=
  match authUser with
  | none => (.unauthorized, db)
  | some uid =>
    match findProfile db uid with
    | none => (.forbidden, db)
    | some profile =>
      if profile.role ≠ Role.validator then
        (.forbidden, db)
      else if f.validationInsert || hasVote db milestoneId profile.id
          || !(milestoneExists db milestoneId) then
        (.validationFailed, db)
      else
        let validation : Validation :=
          { id := db.nextValidationId, milestone_id := milestoneId,
            validator_id := profile.id, is_valid := isValid }
        let db1 : DB :=
          { db with validations := db.validations ++ [validation],
                    nextValidationId := db.nextValidationId + 1 }
        if f.voteCount then
          (.countFailed, db1)
        else
          let cnt := positiveVotes db1 milestoneId
          if APPROVAL_THRESHOLD ≤ cnt then
            if f.milestoneUpdate then
              (.success validation cnt false, db1)
            else
              let db2 : DB := { db1 with milestones := db1.milestones.map (updStatus milestoneId) }
              if f.releaseLedger then
                (.success validation cnt true, db2)
              else
                let entry : LedgerEntry :=
                  { event_type := "release",
                    details := .releaseEv milestoneId validation.id cnt true now }
                (.success validation cnt true, { db2 with ledger := db2.ledger ++ [entry] })
          else
            (.success validation cnt false, db1)

/-! ### Concrete states used by counterexamples and witnesses -/

/-- Four validator profiles, a donor and an ngo (profile id = user id). -/
def someProfiles : List Profile :=
  [⟨1, 1, .validator⟩, ⟨2, 2, .validator⟩, ⟨3, 3, .validator⟩,
   ⟨4, 4, .validator⟩, ⟨5, 5, .donor⟩, ⟨6, 6, .ngo⟩]

/-- A state whose milestone 10 is already COMPLETED with three positive votes
and one release ledger entry. -/
def dbCompleted : DB :=
  { profiles := someProfiles
    projects := [⟨20, 100⟩]
    milestones := [⟨10, "COMPLETED"⟩]
    validations := [⟨1, 10, 1, true⟩, ⟨2, 10, 2, true⟩, ⟨3, 10, 3, true⟩]
    donations := []
    ledger := [⟨"release", .releaseEv 10 3 3 true 0⟩]
    nextDonationId := 1
    nextValidationId := 4 }

/-- A state with a donor profile and one project at funds_raised = 100. -/
def dbProject : DB :=
  { profiles := someProfiles
    projects := [⟨20, 100⟩]
    milestones := []
    validations := []
    donations := []
    ledger := []
    nextDonationId := 1
    nextValidationId := 1 }

/-- A state whose validator 1 has already voted on the PENDING milestone 10. -/
def dbVoted : DB :=
  { profiles := someProfiles
    projects := []
    milestones := [⟨10, "PENDING"⟩]
    validations := [⟨1, 10, 1, true⟩]
    donations := []
    ledger := []
    nextDonationId := 1
    nextValidationId := 2 }

/-- A state with profiles only: no projects, no milestones. -/
def dbEmpty : DB :=
  { profiles := someProfiles
    projects := []
    milestones := []
    validations := []
    donations := []
    ledger := []
    nextDonationId := 1
    nextValidationId := 1 }

/-- A state with a PENDING milestone that already has two positive votes. -/
def dbTwoVotes : DB :=
  { profiles := someProfiles
    projects := []
    milestones := [⟨10, "PENDING"⟩]
    validations := [⟨1, 10, 1, true⟩, ⟨2, 10, 2, true⟩]
    donations := []
    ledger := []
    nextDonationId := 1
    nextValidationId := 3 }

example :
    (castVote dbCompleted (some 4) 10 true noFail 5).1 = .success ⟨4, 10, 4, true⟩ 4 true := rfl
example : releaseEntries (castVote dbCompleted (some 4) 10 true noFail 5).2 10 = 2 := rfl
example : getStatus dbCompleted 10 = some "COMPLETED" := rfl
example :
    (makeDonation dbProject (some 5) 20 (-5) noFail 7).1 = .success ⟨1, 5, 20, -5⟩ := rfl
example : getFunds (makeDonation dbProject (some 5) 20 (-5) noFail 7).2 20 = some 95 := rfl
example : (castVote dbVoted (some 1) 10 true noFail 0) = (.validationFailed, dbVoted) := rfl
example : (makeDonation dbEmpty (some 5) 20 50 noFail 0) = (.donationFailed, dbEmpty) := rfl
example : (castVote dbTwoVotes (some 5) 10 true noFail 0) = (.forbidden, dbTwoVotes) := rfl
example : getStatus (castVote dbTwoVotes (some 3) 10 true noFail 9).2 10 = some "COMPLETED" := rfl
example :
    (castVote dbTwoVotes (some 3) 10 true noFail 9).2.ledger
      = [⟨"release", .releaseEv 10 3 3 true 9⟩] := rfl
example : (castVote dbTwoVotes (some 3) 10 false noFail 9).2.ledger = [] := rfl
example :
    (castVote dbTwoVotes (some 3) 10 true msUpdateFailOnly 9).1 = .success ⟨3, 10, 3, true⟩ 3 false := rfl
example :
    (makeDonation dbProject (some 5) 20 40 ledgerFailOnly 7).2.ledger = [] := rfl
example :
    (makeDonation dbProject (some 5) 20 40 ledgerFailOnly 7).1 = .success ⟨1, 5, 20, 40⟩ := rfl

/-! ### General lemmas about the handlers -/

theorem updFunds_id (pid : Nat) (A : Int) (p : Project) : (updFunds pid A p).id = p.id := by
  unfold updFunds
  split <;> rfl

theorem updStatus_id (mid : Nat) (m : Milestone) : (updStatus mid m).id = m.id := by
  unfold updStatus
  split <;> rfl

/-- find? after the funds UPDATE commutes with find? before it. -/
theorem find?_updFunds (ps : List Project) (pid qid : Nat) (A : Int) :
    (ps.map (updFunds pid A)).find? (fun p => p.id == qid)
      = (ps.find? (fun p => p.id == qid)).map (updFunds pid A) := by
  induction ps with
  | nil => rfl
  | cons p ps ih =>
    by_cases h : (p.id == qid) = true
    · have h2 : ((updFunds pid A p).id == qid) = true := by
        rw [updFunds_id]; exact h
      simp [List.find?_cons, h, h2]
    · have h2 : ((updFunds pid A p).id == qid) = false := by
        rw [updFunds_id]; exact Bool.eq_false_iff.mpr h
      simp [List.find?_cons, h, h2, ih]

/-- find? after the status UPDATE commutes with find? before it. -/
theorem find?_updStatus (ms : List Milestone) (mid qid : Nat) :
    (ms.map (updStatus mid)).find? (fun m => m.id == qid)
      = (ms.find? (fun m => m.id == qid)).map (updStatus mid) := by
  induction ms with
  | nil => rfl
  | cons m ms ih =>
    by_cases h : (m.id == qid) = true
    · have h2 : ((updStatus mid m).id == qid) = true := by
        rw [updStatus_id]; exact h
      simp [List.find?_cons, h, h2]
    · have h2 : ((updStatus mid m).id == qid) = false := by
        rw [updStatus_id]; exact Bool.eq_false_iff.mpr h
      simp [List.find?_cons, h, h2, ih]

/-- The fresh count after inserting a vote for the same milestone. -/
theorem positiveVotes_concat (l : List Validation) (v : Validation) (mid : Nat)
    (hm : v.milestone_id = mid) :
    ((l ++ [v]).filter (fun x => x.milestone_id == mid && x.is_valid)).length
      = (l.filter (fun x => x.milestone_id == mid && x.is_valid)).length
        + (if v.is_valid then 1 else 0) := by
  rw [List.filter_append, List.length_append]
  congr 1
  subst hm
  by_cases hv : v.is_valid = true <;> simp [hv]

/-- Full run of make-donation with no spontaneous store failure, a resolved
profile and an existing project. -/
theorem makeDonation_run (db : DB) (uid : Nat) (profile : Profile) (pid : Nat)
    (A : Int) (now : Nat)
    (hp : findProfile db uid = some profile)
    (hproj : projectExists db pid = true) :
    makeDonation db (some uid) pid A noFail now =
      (.success ⟨db.nextDonationId, profile.id, pid, A⟩,
       { db with donations := db.donations ++ [⟨db.nextDonationId, profile.id, pid, A⟩],
                 nextDonationId := db.nextDonationId + 1,
                 projects := db.projects.map (updFunds pid A),
                 ledger := db.ledger
                   ++ [⟨"donation", .donationEv db.nextDonationId profile.id pid A now⟩] }) := by
  simp [makeDonation, hp, hproj, noFail]

/-- Run of make-donation where only the ledger append fails: the donation and
the funds update stand, the call still succeeds, only the ledger entry is
missing. -/
theorem makeDonation_run_ledgerFail (db : DB) (uid : Nat) (profile : Profile)
    (pid : Nat) (A : Int) (now : Nat)
    (hp : findProfile db uid = some profile)
    (hproj : projectExists db pid = true) :
    makeDonation db (some uid) pid A ledgerFailOnly now =
      (.success ⟨db.nextDonationId, profile.id, pid, A⟩,
       { db with donations := db.donations ++ [⟨db.nextDonationId, profile.id, pid, A⟩],
                 nextDonationId := db.nextDonationId + 1,
                 projects := db.projects.map (updFunds pid A) }) := by
  simp [makeDonation, hp, hproj, ledgerFailOnly]

/-- cast-vote never touches the projects table, whatever happens. -/
theorem castVote_preserves_projects (db : DB) (a : Option Nat) (mid : Nat) (b : Bool)
    (f : StoreFail) (now : Nat) :
    (castVote db a mid b f now).2.projects = db.projects := by
  unfold castVote
  cases a with
  | none => rfl
  | some uid =>
    dsimp only
    cases hfp : findProfile db uid with
    | none => rfl
    | some profile =>
      dsimp only
      split
      · rfl
      · split
        · rfl
        · split
          · rfl
          · split
            · split
              · rfl
              · split
                · rfl
                · rfl
            · rfl

/-- Full run of cast-vote with no spontaneous store failure, reaching the
threshold: the validation is inserted, the milestone status is written to
COMPLETED (no check of its current value!) and a release ledger entry is
appended. -/
theorem castVote_run_over (db : DB) (uid : Nat) (profile : Profile) (mid : Nat)
    (b : Bool) (now : Nat)
    (hp : findProfile db uid = some profile)
    (hrole : profile.role = Role.validator)
    (hm : milestoneExists db mid = true)
    (hdup : hasVote db mid profile.id = false)
    (hcnt : APPROVAL_THRESHOLD ≤ positiveVotes db mid + (if b then 1 else 0)) :
    castVote db (some uid) mid b noFail now =
      (.success ⟨db.nextValidationId, mid, profile.id, b⟩
          (positiveVotes db mid + (if b then 1 else 0)) true,
       { db with
           validations := db.validations ++ [⟨db.nextValidationId, mid, profile.id, b⟩],
           nextValidationId := db.nextValidationId + 1,
           milestones := db.milestones.map (updStatus mid),
           ledger := db.ledger ++ [⟨"release",
             .releaseEv mid db.nextValidationId
               (positiveVotes db mid + (if b then 1 else 0)) true now⟩] }) := by
  have hv : positiveVotes
      { db with validations := db.validations ++ [⟨db.nextValidationId, mid, profile.id, b⟩],
                nextValidationId := db.nextValidationId + 1 } mid
      = positiveVotes db mid + (if b then 1 else 0) := by
    show ((db.validations ++ [(⟨db.nextValidationId, mid, profile.id, b⟩ : Validation)]).filter
        (fun x => x.milestone_id == mid && x.is_valid)).length = _
    rw [positiveVotes_concat db.validations ⟨db.nextValidationId, mid, profile.id, b⟩ mid rfl]
    rfl
  simp [castVote, hp, hrole, hm, hdup, noFail, hv, hcnt]

/-- Full run of cast-vote with no spontaneous store failure, below the
threshold: the validation is inserted and nothing else happens. -/
theorem castVote_run_under (db : DB) (uid : Nat) (profile : Profile) (mid : Nat)
    (b : Bool) (now : Nat)
    (hp : findProfile db uid = some profile)
    (hrole : profile.role = Role.validator)
    (hm : milestoneExists db mid = true)
    (hdup : hasVote db mid profile.id = false)
    (hcnt : positiveVotes db mid + (if b then 1 else 0) < APPROVAL_THRESHOLD) :
    castVote db (some uid) mid b noFail now =
      (.success ⟨db.nextValidationId, mid, profile.id, b⟩
          (positiveVotes db mid + (if b then 1 else 0)) false,
       { db with
           validations := db.validations ++ [⟨db.nextValidationId, mid, profile.id, b⟩],
           nextValidationId := db.nextValidationId + 1 }) := by
  have hv : positiveVotes
      { db with validations := db.validations ++ [⟨db.nextValidationId, mid, profile.id, b⟩],
                nextValidationId := db.nextValidationId + 1 } mid
      = positiveVotes db mid + (if b then 1 else 0) := by
    show ((db.validations ++ [(⟨db.nextValidationId, mid, profile.id, b⟩ : Validation)]).filter
        (fun x => x.milestone_id == mid && x.is_valid)).length = _
    rw [positiveVotes_concat db.validations ⟨db.nextValidationId, mid, profile.id, b⟩ mid rfl]
    rfl
  simp [castVote, hp, hrole, hm, hdup, noFail, hv, Nat.not_le.mpr hcnt]

/-- Run of cast-vote over the threshold where only the milestone status
update fails: the vote stays recorded, the call still succeeds, with
milestone_completed = false and no release ledger entry. -/
theorem castVote_run_msFail (db : DB) (uid : Nat) (profile : Profile) (mid : Nat)
    (b : Bool) (now : Nat)
    (hp : findProfile db uid = some profile)
    (hrole : profile.role = Role.validator)
    (hm : milestoneExists db mid = true)
    (hdup : hasVote db mid profile.id = false)
    (hcnt : APPROVAL_THRESHOLD ≤ positiveVotes db mid + (if b then 1 else 0)) :
    castVote db (some uid) mid b msUpdateFailOnly now =
      (.success ⟨db.nextValidationId, mid, profile.id, b⟩
          (positiveVotes db mid + (if b then 1 else 0)) false,
       { db with
           validations := db.validations ++ [⟨db.nextValidationId, mid, profile.id, b⟩],
           nextValidationId := db.nextValidationId + 1 }) := by
  have hv : positiveVotes
      { db with validations := db.validations ++ [⟨db.nextValidationId, mid, profile.id, b⟩],
                nextValidationId := db.nextValidationId + 1 } mid
      = positiveVotes db mid + (if b then 1 else 0) := by
    show ((db.validations ++ [(⟨db.nextValidationId, mid, profile.id, b⟩ : Validation)]).filter
        (fun x => x.milestone_id == mid && x.is_valid)).length = _
    rw [positiveVotes_concat db.validations ⟨db.nextValidationId, mid, profile.id, b⟩ mid rfl]
    rfl
  simp [castVote, hp, hrole, hm, hdup, msUpdateFailOnly, hv, hcnt]

/-- make-donation leaves the projects table unchanged or applies exactly the
funds UPDATE, on every path. -/
theorem makeDonation_projects_cases (db : DB) (a : Option Nat) (pid : Nat) (A : Int)
    (f : StoreFail) (now : Nat) :
    (makeDonation db a pid A f now).2.projects = db.projects ∨
    (makeDonation db a pid A f now).2.projects = db.projects.map (updFunds pid A) := by
  unfold makeDonation
  cases a with
  | none => exact Or.inl rfl
  | some uid =>
    dsimp only
    cases hfp : findProfile db uid with
    | none => exact Or.inl rfl
    | some profile =>
      dsimp only
      split
      · exact Or.inl rfl
      · split
        · exact Or.inl rfl
        · split
          · exact Or.inr rfl
          · exact Or.inr rfl

/-- A project found by id carries that id. -/
theorem find?_project_id (ps : List Project) (qid : Nat) (p : Project)
    (h : ps.find? (fun x => x.id == qid) = some p) : (p.id == qid) = true := by
  induction ps with
  | nil => cases h
  | cons x xs ih =>
    rw [List.find?_cons_eq_some] at h
    rcases h with ⟨hpx, rfl⟩ | ⟨_, h⟩
    · exact hpx
    · exact ih h

/-- A milestone found by id carries that id. -/
theorem find?_milestone_id (ms : List Milestone) (qid : Nat) (m : Milestone)
    (h : ms.find? (fun x => x.id == qid) = some m) : (m.id == qid) = true := by
  induction ms with
  | nil => cases h
  | cons x xs ih =>
    rw [List.find?_cons_eq_some] at h
    rcases h with ⟨hpx, rfl⟩ | ⟨_, h⟩
    · exact hpx
    · exact ih h

/-- The funds UPDATE with a non-negative amount never lowers any project's
funds_raised. -/
theorem getFunds_after_updFunds (ps : List Project) (pid qid : Nat) (A : Int) (v : Int)
    (hv : (ps.find? (fun p => p.id == qid)).map Project.funds_raised = some v)
    (hA : 0 ≤ A) :
    ∃ w, ((ps.map (updFunds pid A)).find? (fun p => p.id == qid)).map Project.funds_raised
        = some w ∧ v ≤ w := by
  rw [find?_updFunds]
  cases hfind : ps.find? (fun p => p.id == qid) with
  | none => rw [hfind] at hv; cases hv
  | some p =>
    rw [hfind] at hv
    simp only [Option.map_some', Option.some.injEq] at hv
    refine ⟨(updFunds pid A p).funds_raised, by simp, ?_⟩
    subst hv
    unfold updFunds
    split
    · exact le_add_of_nonneg_right hA
    · exact le_refl _

/-- An existing milestone is found by find?. -/
theorem milestoneExists_find? (db : DB) (mid : Nat) (h : milestoneExists db mid = true) :
    ∃ m, db.milestones.find? (fun m => m.id == mid) = some m ∧ (m.id == mid) = true := by
  have h2 : ∃ m ∈ db.milestones, (m.id == mid) = true := by
    simpa [milestoneExists, List.any_eq_true] using h
  have h3 : (db.milestones.find? (fun m => m.id == mid)).isSome := by
    simpa [List.find?_isSome] using h2
  rcases Option.isSome_iff_exists.mp h3 with ⟨m, hm⟩
  exact ⟨m, hm, find?_milestone_id db.milestones mid m hm⟩

/-- After the status UPDATE, an existing milestone reads COMPLETED. -/
theorem getStatus_after_updStatus (db db2 : DB) (mid : Nat)
    (h : milestoneExists db mid = true)
    (hms : db2.milestones = db.milestones.map (updStatus mid)) :
    getStatus db2 mid = some "COMPLETED" := by
  rcases milestoneExists_find? db mid h with ⟨m, hm, hid⟩
  unfold getStatus
  rw [hms, find?_updStatus, hm]
  simp only [Option.map_some']
  unfold updStatus
  rw [if_pos hid]

/-! ### Claim C1 -/

/-- Claim C1, counterexample: in a state whose milestone 10 is already
COMPLETED (its three positive votes already recorded, one release ledger
entry already present), a further successful cast-vote by a fresh validator
succeeds, re-updates the milestone and appends a second "release" ledger
entry — the claimed at-most-one-release invariant fails. -/
theorem completed_milestone_second_release_counterexample :
    getStatus dbCompleted 10 = some "COMPLETED" ∧
    positiveVotes dbCompleted 10 = 3 ∧
    releaseEntries dbCompleted 10 = 1 ∧
    (castVote dbCompleted (some 4) 10 true noFail 5).1
      = .success ⟨4, 10, 4, true⟩ 4 true ∧
    releaseEntries (castVote dbCompleted (some 4) 10 true noFail 5).2 10 = 2 :=
  ⟨rfl, rfl, rfl, rfl, rfl⟩

/-- Claim C1 as amended: the cast-vote handler has no completed-status guard.
Every successful positive vote after which the positive count is at least the
threshold sets the milestone status to COMPLETED and appends one more
"release" ledger entry, regardless of the milestone's current status — so a
milestone already COMPLETED accumulates further release entries. -/
theorem castVote_refires_release_after_completion
    (db : DB) (uid : Nat) (profile : Profile) (mid : Nat) (now : Nat)
    (hp : findProfile db uid = some profile)
    (hrole : profile.role = Role.validator)
    (hm : milestoneExists db mid = true)
    (hdup : hasVote db mid profile.id = false)
    (hcnt : APPROVAL_THRESHOLD ≤ positiveVotes db mid + 1) :
    (castVote db (some uid) mid true noFail now).1
      = .success ⟨db.nextValidationId, mid, profile.id, true⟩ (positiveVotes db mid + 1) true ∧
    (castVote db (some uid) mid true noFail now).2.ledger
      = db.ledger ++ [⟨"release",
          .releaseEv mid db.nextValidationId (positiveVotes db mid + 1) true now⟩] ∧
    getStatus (castVote db (some uid) mid true noFail now).2 mid = some "COMPLETED" := by
  have h := castVote_run_over db uid profile mid true now hp hrole hm hdup hcnt
  rw [h]
  exact ⟨rfl, rfl, getStatus_after_updStatus db _ mid hm rfl⟩

/-- Witness for the amended C1 at a concrete already-COMPLETED state. -/
theorem castVote_refires_release_after_completion_witness :
    (castVote dbCompleted (some 4) 10 true noFail 5).2.ledger
      = dbCompleted.ledger ++ [⟨"release", .releaseEv 10 4 4 true 5⟩] :=
  (castVote_refires_release_after_completion dbCompleted 4 ⟨4, 4, .validator⟩ 10 5
    rfl rfl rfl rfl (by decide)).2.1

/-! ### Claim C2 -/

/-- Claim C2, counterexample: a make-donation request with amount −5 does not
fail with any InvalidAmount error; it succeeds, inserts the donation row and
lowers the project's funds_raised from 100 to 95. -/
theorem negative_amount_success_counterexample :
    (makeDonation dbProject (some 5) 20 (-5) noFail 7).1 = .success ⟨1, 5, 20, -5⟩ ∧
    (makeDonation dbProject (some 5) 20 (-5) noFail 7).2.donations = [⟨1, 5, 20, -5⟩] ∧
    getFunds dbProject 20 = some 100 ∧
    getFunds (makeDonation dbProject (some 5) 20 (-5) noFail 7).2 20 = some 95 :=
  ⟨rfl, rfl, rfl, rfl⟩

/-- Claim C2 as amended: the handler performs no amount validation. A
make-donation request with amount ≤ 0 from a caller resolving to a profile,
for an existing project, is processed exactly like any other donation: the
row is inserted with the non-positive amount, funds_raised is changed by
that amount, and a "donation" ledger entry is appended. -/
theorem nonpositive_amount_processed
    (db : DB) (uid : Nat) (profile : Profile) (pid : Nat) (A : Int) (now : Nat)
    (hp : findProfile db uid = some profile)
    (hproj : projectExists db pid = true)
    (hA : A ≤ 0) :
    makeDonation db (some uid) pid A noFail now =
      (.success ⟨db.nextDonationId, profile.id, pid, A⟩,
       { db with donations := db.donations ++ [⟨db.nextDonationId, profile.id, pid, A⟩],
                 nextDonationId := db.nextDonationId + 1,
                 projects := db.projects.map (updFunds pid A),
                 ledger := db.ledger
                   ++ [⟨"donation", .donationEv db.nextDonationId profile.id pid A now⟩] }) :=
  makeDonation_run db uid profile pid A now hp hproj

/-- Witness for the amended C2 at amount −5. -/
theorem nonpositive_amount_processed_witness :
    makeDonation dbProject (some 5) 20 (-5) noFail 7 =
      (.success ⟨1, 5, 20, -5⟩,
       { dbProject with donations := [⟨1, 5, 20, -5⟩], nextDonationId := 2,
                        projects := [⟨20, 95⟩],
                        ledger := [⟨"donation", .donationEv 1 5 20 (-5) 7⟩] }) :=
  nonpositive_amount_processed dbProject 5 ⟨5, 5, .donor⟩ 20 (-5) 7 rfl rfl (by decide)

/-! ### Claim C3 -/

/-- Claim C3, counterexample: funds_raised is not monotonically
non-decreasing — processing a donation of amount −5 lowers it from 100
to 95. -/
theorem funds_raised_decreases_counterexample :
    getFunds dbProject 20 = some 100 ∧
    getFunds (makeDonation dbProject (some 5) 20 (-5) noFail 7).2 20 = some 95 ∧
    (95 : Int) < 100 :=
  ⟨rfl, rfl, by decide⟩

/-- Claim C3 as amended: funds_raised changes only via donation processing,
which adds the donation amount — cast-vote never changes any project's
funds_raised, and make-donation never decreases it when the donated amount
is non-negative; since amounts are not validated, a negative amount does
decrease it. -/
theorem funds_raised_changes_only_via_donations
    (db : DB) (a : Option Nat) (pid mid qid : Nat) (A : Int) (b : Bool)
    (f : StoreFail) (now : Nat) (hA : 0 ≤ A) (v : Int)
    (hv : getFunds db qid = some v) :
    getFunds (castVote db a mid b f now).2 qid = some v ∧
    ∃ w, getFunds (makeDonation db a pid A f now).2 qid = some w ∧ v ≤ w := by
  constructor
  · unfold getFunds
    rw [castVote_preserves_projects]
    exact hv
  · rcases makeDonation_projects_cases db a pid A f now with hcase | hcase
    · refine ⟨v, ?_, le_refl v⟩
      unfold getFunds
      rw [hcase]
      exact hv
    · unfold getFunds at hv ⊢
      rw [hcase]
      exact getFunds_after_updFunds db.projects pid qid A v hv hA

/-- Witness for the amended C3 on a concrete state. -/
theorem funds_raised_changes_only_via_donations_witness :
    getFunds (castVote dbProject (some 5) 10 true noFail 0).2 20 = some 100 ∧
    ∃ w, getFunds (makeDonation dbProject (some 5) 20 40 noFail 0).2 20 = some w
      ∧ (100 : Int) ≤ w :=
  funds_raised_changes_only_via_donations dbProject (some 5) 20 10 20 40 true noFail 0
    (by decide) 100 rfl

/-! ### Claim C4 -/

/-- Claim C4: a successful donation of a positive amount A by a caller
resolving to an existing profile, to an existing project, with no
spontaneous store failure, increases the project's funds_raised by exactly
A, creates exactly one donation row, and appends exactly one "donation"
ledger entry carrying donor id, project id, amount and timestamp. -/
theorem donation_success_effects
    (db : DB) (uid : Nat) (profile : Profile) (pid : Nat) (A : Int) (now : Nat)
    (hp : findProfile db uid = some profile)
    (hproj : projectExists db pid = true)
    (hA : 0 < A) (v : Int) (hv : getFunds db pid = some v) :
    (makeDonation db (some uid) pid A noFail now).1
      = .success ⟨db.nextDonationId, profile.id, pid, A⟩ ∧
    (makeDonation db (some uid) pid A noFail now).2.donations
      = db.donations ++ [⟨db.nextDonationId, profile.id, pid, A⟩] ∧
    getFunds (makeDonation db (some uid) pid A noFail now).2 pid = some (v + A) ∧
    (makeDonation db (some uid) pid A noFail now).2.ledger
      = db.ledger ++ [⟨"donation", .donationEv db.nextDonationId profile.id pid A now⟩] := by
  have h := makeDonation_run db uid profile pid A now hp hproj
  rw [h]
  refine ⟨rfl, rfl, ?_, rfl⟩
  unfold getFunds at hv ⊢
  dsimp only
  rw [find?_updFunds]
  cases hfind : db.projects.find? (fun p => p.id == pid) with
  | none =>
    rw [hfind] at hv
    cases hv
  | some p =>
    rw [hfind] at hv
    simp only [Option.map_some', Option.some.injEq] at hv
    subst hv
    simp only [Option.map_some', Option.some.injEq]
    have hid := find?_project_id db.projects pid p hfind
    unfold updFunds
    rw [if_pos hid]

/-- Witness for C4: a donation of 40 raises funds from 100 to 140. -/
theorem donation_success_effects_witness :
    getFunds (makeDonation dbProject (some 5) 20 40 noFail 7).2 20 = some 140 ∧
    (makeDonation dbProject (some 5) 20 40 noFail 7).2.ledger
      = dbProject.ledger ++ [⟨"donation", .donationEv 1 5 20 40 7⟩] := by
  have h := donation_success_effects dbProject 5 ⟨5, 5, .donor⟩ 20 40 7 rfl rfl
    (by decide) 100 rfl
  exact ⟨h.2.2.1, h.2.2.2⟩

/-! ### Claim C5 -/

/-- Claim C5, counterexample: the second vote by the same validator on the
same milestone is indeed rejected with no state change, but the rejection is
the generic validation-insert store failure with HTTP status 500 — not the
claimed 4xx-equivalent status. -/
theorem duplicate_vote_not_4xx_counterexample :
    hasVote dbVoted 10 1 = true ∧
    castVote dbVoted (some 1) 10 true noFail 0 = (.validationFailed, dbVoted) ∧
    (castVote dbVoted (some 1) 10 true noFail 0).1.status = 500 ∧
    ¬(400 ≤ (castVote dbVoted (some 1) 10 true noFail 0).1.status ∧
      (castVote dbVoted (some 1) 10 true noFail 0).1.status < 500) :=
  ⟨rfl, rfl, rfl, by decide⟩

/-- Claim C5 as amended: a second cast-vote by the same (validator,
milestone) pair hits the store's uniqueness constraint on the validation
insert and fails with the insert-failure response (HTTP status 500, not
4xx), producing no additional validation row and leaving all state
unchanged. -/
theorem duplicate_vote_rejected_500
    (db : DB) (uid : Nat) (profile : Profile) (mid : Nat) (b : Bool)
    (f : StoreFail) (now : Nat)
    (hp : findProfile db uid = some profile)
    (hrole : profile.role = Role.validator)
    (hdup : hasVote db mid profile.id = true) :
    castVote db (some uid) mid b f now = (.validationFailed, db) ∧
    VoteResult.validationFailed.status = 500 := by
  refine ⟨?_, rfl⟩
  simp [castVote, hp, hrole, hdup]

/-- Witness for the amended C5 at a concrete duplicate pair. -/
theorem duplicate_vote_rejected_500_witness :
    castVote dbVoted (some 1) 10 false noFail 3 = (.validationFailed, dbVoted) :=
  (duplicate_vote_rejected_500 dbVoted 1 ⟨1, 1, .validator⟩ 10 false noFail 3
    rfl rfl rfl).1

/-! ### Claim C6 -/

/-- Claim C6: after a successful vote on a PENDING milestone with no
spontaneous store failure, if the fresh count of is_valid = true validations
reaches the threshold 3 the milestone's status becomes COMPLETED and exactly
one "release" ledger entry with milestone id, triggering validation id,
positive-vote count and timestamp is appended; if the count stays below 3,
neither the milestones table nor the ledger changes. -/
theorem vote_threshold_completion
    (db : DB) (uid : Nat) (profile : Profile) (mid : Nat) (b : Bool) (now : Nat)
    (hp : findProfile db uid = some profile)
    (hrole : profile.role = Role.validator)
    (hm : milestoneExists db mid = true)
    (hdup : hasVote db mid profile.id = false)
    (hstatus : getStatus db mid = some "PENDING") :
    (APPROVAL_THRESHOLD ≤ positiveVotes db mid + (if b then 1 else 0) →
      (castVote db (some uid) mid b noFail now).1
        = .success ⟨db.nextValidationId, mid, profile.id, b⟩
            (positiveVotes db mid + (if b then 1 else 0)) true ∧
      getStatus (castVote db (some uid) mid b noFail now).2 mid = some "COMPLETED" ∧
      (castVote db (some uid) mid b noFail now).2.ledger
        = db.ledger ++ [⟨"release", .releaseEv mid db.nextValidationId
            (positiveVotes db mid + (if b then 1 else 0)) true now⟩]) ∧
    (positiveVotes db mid + (if b then 1 else 0) < APPROVAL_THRESHOLD →
      (castVote db (some uid) mid b noFail now).1
        = .success ⟨db.nextValidationId, mid, profile.id, b⟩
            (positiveVotes db mid + (if b then 1 else 0)) false ∧
      (castVote db (some uid) mid b noFail now).2.milestones = db.milestones ∧
      (castVote db (some uid) mid b noFail now).2.ledger = db.ledger) := by
  constructor
  · intro hcnt
    have h := castVote_run_over db uid profile mid b now hp hrole hm hdup hcnt
    rw [h]
    exact ⟨rfl, getStatus_after_updStatus db _ mid hm rfl, rfl⟩
  · intro hcnt
    have h := castVote_run_under db uid profile mid b now hp hrole hm hdup hcnt
    rw [h]
    exact ⟨rfl, rfl, rfl⟩

/-- Witness for C6: the third positive vote completes the milestone and
appends the release entry. -/
theorem vote_threshold_completion_witness :
    getStatus (castVote dbTwoVotes (some 3) 10 true noFail 9).2 10 = some "COMPLETED" ∧
    (castVote dbTwoVotes (some 3) 10 true noFail 9).2.ledger
      = dbTwoVotes.ledger ++ [⟨"release", .releaseEv 10 3 3 true 9⟩] := by
  have h := (vote_threshold_completion dbTwoVotes 3 ⟨3, 3, .validator⟩ 10 true 9
    rfl rfl rfl rfl rfl).1 (by decide)
  exact ⟨h.2.1, h.2.2⟩

/-! ### Claim C7 -/

/-- Claim C7: a make-donation request referencing a nonexistent project
fails — the referential constraint on the donation insert is violated, the
handler answers with the donation-insert failure response, and no state is
mutated. (NotFound is the spec taxonomy's name for this constraint-violation
failure; the handler surfaces it with status 500.) -/
theorem donation_missing_project_fails
    (db : DB) (uid : Nat) (profile : Profile) (pid : Nat) (A : Int)
    (f : StoreFail) (now : Nat)
    (hp : findProfile db uid = some profile)
    (hproj : projectExists db pid = false) :
    makeDonation db (some uid) pid A f now = (.donationFailed, db) := by
  simp [makeDonation, hp, hproj]

/-- Witness for C7 at a state with no projects. -/
theorem donation_missing_project_fails_witness :
    makeDonation dbEmpty (some 5) 20 50 noFail 0 = (.donationFailed, dbEmpty) :=
  donation_missing_project_fails dbEmpty 5 ⟨5, 5, .donor⟩ 20 50 noFail 0 rfl rfl

/-! ### Claim C8 -/

/-- Claim C8: secondary-write failures are non-fatal while the primary write
is preserved. In make-donation, a ledger-append failure after the donation
insert and the funds update leaves both in place and the call still succeeds
with the created donation; in cast-vote, a milestone-update failure after
the validation insert leaves the vote recorded and the call still succeeds
(with milestone_completed = false and no release entry). -/
theorem secondary_write_failures_nonfatal
    (dbA dbB : DB) (uidA uidB : Nat) (prA prB : Profile) (pid mid : Nat)
    (A : Int) (b : Bool) (nowA nowB : Nat) :
    (findProfile dbA uidA = some prA → projectExists dbA pid = true →
      makeDonation dbA (some uidA) pid A ledgerFailOnly nowA =
        (.success ⟨dbA.nextDonationId, prA.id, pid, A⟩,
         { dbA with donations := dbA.donations ++ [⟨dbA.nextDonationId, prA.id, pid, A⟩],
                    nextDonationId := dbA.nextDonationId + 1,
                    projects := dbA.projects.map (updFunds pid A) })) ∧
    (findProfile dbB uidB = some prB → prB.role = Role.validator →
     milestoneExists dbB mid = true → hasVote dbB mid prB.id = false →
     APPROVAL_THRESHOLD ≤ positiveVotes dbB mid + (if b then 1 else 0) →
      castVote dbB (some uidB) mid b msUpdateFailOnly nowB =
        (.success ⟨dbB.nextValidationId, mid, prB.id, b⟩
            (positiveVotes dbB mid + (if b then 1 else 0)) false,
         { dbB with validations := dbB.validations ++ [⟨dbB.nextValidationId, mid, prB.id, b⟩],
                    nextValidationId := dbB.nextValidationId + 1 })) := by
  constructor
  · intro hp hproj
    exact makeDonation_run_ledgerFail dbA uidA prA pid A nowA hp hproj
  · intro hp hrole hm hdup hcnt
    exact castVote_run_msFail dbB uidB prB mid b nowB hp hrole hm hdup hcnt

/-- Witness for C8 on concrete states. -/
theorem secondary_write_failures_nonfatal_witness :
    makeDonation dbProject (some 5) 20 40 ledgerFailOnly 7 =
      (.success ⟨1, 5, 20, 40⟩,
       { dbProject with donations := [⟨1, 5, 20, 40⟩], nextDonationId := 2,
                        projects := [⟨20, 140⟩] }) ∧
    castVote dbTwoVotes (some 3) 10 true msUpdateFailOnly 9 =
      (.success ⟨3, 10, 3, true⟩ 3 false,
       { dbTwoVotes with validations := dbTwoVotes.validations ++ [⟨3, 10, 3, true⟩],
                         nextValidationId := 4 }) := by
  have h := secondary_write_failures_nonfatal dbProject dbTwoVotes 5 3
    ⟨5, 5, .donor⟩ ⟨3, 3, .validator⟩ 20 10 40 true 7 9
  exact ⟨h.1 rfl rfl, h.2 rfl rfl rfl rfl (by decide)⟩

/-! ### Claim C9 -/

/-- Claim C9: a cast-vote call whose caller resolves to a profile whose role
is not validator is rejected with the Forbidden response (status 403), no
validation row is created and all state is unchanged. -/
theorem nonvalidator_vote_forbidden
    (db : DB) (uid : Nat) (profile : Profile) (mid : Nat) (b : Bool)
    (f : StoreFail) (now : Nat)
    (hp : findProfile db uid = some profile)
    (hrole : profile.role ≠ Role.validator) :
    castVote db (some uid) mid b f now = (.forbidden, db) ∧
    VoteResult.forbidden.status = 403 := by
  refine ⟨?_, rfl⟩
  simp [castVote, hp, hrole]

/-- Witness for C9: a donor calling cast-vote is rejected. -/
theorem nonvalidator_vote_forbidden_witness :
    castVote dbTwoVotes (some 5) 10 true noFail 0 = (.forbidden, dbTwoVotes) :=
  (nonvalidator_vote_forbidden dbTwoVotes 5 ⟨5, 5, .donor⟩ 10 true noFail 0
    rfl (by decide)).1

/-! ### Claim C10 -/

/-- Claim C10: make-donation performs no role check — for a caller resolving
to an existing profile of any role whatsoever, with an existing project and
no spontaneous store failure, the handler proceeds to insert the donation
and succeeds. -/
theorem donation_no_role_check
    (db : DB) (uid : Nat) (profile : Profile) (ρ : Role) (pid : Nat) (A : Int) (now : Nat)
    (hp : findProfile db uid = some profile)
    (hrole : profile.role = ρ)
    (hproj : projectExists db pid = true) :
    (makeDonation db (some uid) pid A noFail now).1
      = .success ⟨db.nextDonationId, profile.id, pid, A⟩ ∧
    (makeDonation db (some uid) pid A noFail now).2.donations
      = db.donations ++ [⟨db.nextDonationId, profile.id, pid, A⟩] := by
  have h := makeDonation_run db uid profile pid A now hp hproj
  rw [h]
  exact ⟨rfl, rfl⟩

/-- Witness for C10: an ngo-role profile's donation is accepted. -/
theorem donation_no_role_check_witness :
    (makeDonation dbProject (some 6) 20 50 noFail 0).1 = .success ⟨1, 6, 20, 50⟩ ∧
    (makeDonation dbProject (some 6) 20 50 noFail 0).2.donations = [⟨1, 6, 20, 50⟩] :=
  donation_no_role_check dbProject 6 ⟨6, 6, .ngo⟩ Role.ngo 20 50 0 rfl rfl rfl

end FundFlow
